import Mathlib

/-!
# Verification of the influxdb query compiler vendored in acs-engine

This file is a shallow embedding of
`vendor/github.com/influxdata/influxdb/query/compile.go` (Go package
`query`): the semantic compiler and shard-aware planner for InfluxQL
SELECT statements.  Pure Go functions become Lean functions; the mutable
`compiledStatement` accumulator is threaded explicitly; fallible code
returns `Except String`.  Timestamps and Go `int64`/`time.Duration`
values are modelled as `Int`, with 64-bit wraparound (`wrap64`) applied
exactly where Go's `int64` arithmetic can overflow.  Go's `/` and `%`
on `int64` truncate toward zero and are modelled by `Int.tdiv` /
`Int.tmod`.

External collaborators (the influxql parser and AST helpers, the shard
mapper, `models` constants) are not part of compile.go; the few of them
whose behaviour the claims need are modelled from the specification and
carry a doc comment starting with `Modelled from the spec:`.
-/

namespace query

/-- `influxql.MinTime` = `math.MinInt64 + 2` (the two lowest int64
values are sentinels): the minimum representable timestamp, in
nanoseconds. `models.MinNanoTime` is the same value. -/
def MinTime : Int := -9223372036854775806

/-- `influxql.MaxTime` = `math.MaxInt64 - 1`: the maximum representable
timestamp, in nanoseconds. `models.MaxNanoTime` is the same value. -/
def MaxTime : Int := 9223372036854775806

/-- `models.MinNanoTime`, used by `Prepare` for the shard-mapping
lower bound. Numerically equal to `MinTime`. -/
def MinNanoTime : Int := -9223372036854775806

/-- Go `int64` two's-complement wraparound: the value an `int64`
computation producing the mathematical integer `x` actually stores. -/
def wrap64 (x : Int) : Int :=
  (x + 9223372036854775808) % 18446744073709551616 - 9223372036854775808

/-- `influxql.TimeRange`: a `Min`/`Max` pair of `time.Time` values.
A Go zero `time.Time` (meaning "bound not set") is modelled as `none`;
a set bound is `some` of its `UnixNano()` value. -/
structure TimeRange where
  Min : Option Int
  Max : Option Int
  deriving DecidableEq

/-- `TimeRange.MinTime()`: the minimum time of the range, or the
minimum representable timestamp when the bound is not set. -/
def TimeRange.minTime (t : TimeRange) : Int :=
  match t.Min with
  | none => MinTime
  | some v => v

/-- `TimeRange.MaxTime()`: the maximum time of the range, or the
maximum representable timestamp when the bound is not set. -/
def TimeRange.maxTime (t : TimeRange) : Int :=
  match t.Max with
  | none => MaxTime
  | some v => v

/-- Modelled from the spec: `influxql.TimeRange.Intersect` — used by the
subquery compiler to clamp the child's resolved time range inside the
parent's (never widening it).  A bound that the other range does not
set is kept; otherwise the later of the two minimums and the earlier of
the two maximums are taken. -/
def TimeRange.Intersect (t other : TimeRange) : TimeRange :=
  let mn : Option Int :=
    match other.Min, t.Min with
    | some om, some tm => if om > tm then some om else some tm
    | some om, none => some om
    | none, _ => t.Min
  let mx : Option Int :=
    match other.Max, t.Max with
    | some oM, some tM => if oM < tM then some oM else some tM
    | some oM, none => some oM
    | none, _ => t.Max
  { Min := mn, Max := mx }

/-- `query.Interval`: the time grouping interval (duration + offset),
both in nanoseconds; a zero duration means "no grouping". -/
structure Interval where
  Duration : Int
  Offset : Int
  deriving DecidableEq

/-- `Interval.IsZero`: an interval with duration 0 means no grouping. -/
def Interval.IsZero (i : Interval) : Prop := i.Duration = 0

instance (i : Interval) : Decidable i.IsZero :=
  inferInstanceAs (Decidable (i.Duration = 0))

/-- `influxql.FillOption`. The Go zero value is `NullFill`. -/
inductive FillOption where
  | nullFill
  | noFill
  | numberFill
  | previousFill
  | linearFill
  deriving DecidableEq

/-- The influxql expression AST, restricted to the payload compile.go
inspects.  `numberLit` (float), `regex` (pattern) and `boolLit` carry
no payload because compilation never reads their values.  `stringLit`
carries the result of the external time-literal parse
(`IsTimeLiteral`/`ToTimeLiteral`): `some t` when the string parses as
the timestamp `t`, `none` otherwise; the raw text is never otherwise
read by compile.go.  `distinctE` is `influxql.Distinct`, whose
`NewCall()` is `distinct(varRef)`. -/
inductive Expr where
  | varRef (val : String)
  | wildcard
  | regex
  | call (name : String) (args : List Expr)
  | distinctE (val : String)
  | binary (lhs rhs : Expr)
  | paren (e : Expr)
  | integerLit (v : Int)
  | numberLit
  | durationLit (v : Int)
  | timeLit (v : Int)
  | stringLit (parsed : Option Int)
  | boolLit
  | nilLit

/-- Which AST nodes implement the Go marker interface
`influxql.Literal` (note that `RegexLiteral` is a Literal). Used by the
binary-expression case of `compileExpr`. -/
def Expr.isLiteral : Expr → Bool
  | .regex => true
  | .integerLit _ => true
  | .numberLit => true
  | .durationLit _ => true
  | .timeLit _ => true
  | .stringLit _ => true
  | .boolLit => true
  | .nilLit => true
  | _ => false

/-- `influxql.Field`: one selected output expression with its optional
alias (empty string = no alias). -/
structure SField where
  expr : Expr
  Alias : String

/-- The parts of `influxql.SelectStatement` that compile.go reads.
`CondTimeRange` is the time range extracted from the statement's WHERE
condition by the external collaborator `influxql.ConditionExpr` (spec
§4.1); the remaining (non-time) condition is not needed by any claim.
`SortAscending` is `stmt.TimeAscending()` and `HasSortFields` is
`len(stmt.SortFields) != 0`.  Nested sources (subqueries) are compiled
per-subquery via `subqueryState` below; the statement's own source
list is not otherwise read by the compiler. -/
structure SelectStatement where
  Fields : List SField
  Dimensions : List Expr
  CondTimeRange : TimeRange
  Fill : FillOption
  Limit : Int
  HasTarget : Bool
  SortAscending : Bool
  HasSortFields : Bool

/-- `query.compiledStatement`: the accumulator built during
compilation.  `NowVal` is `Options.Now` (the fixed compile-time "now",
captured once per top-level compilation).  `Fields` stores the
`influxql.Field` of each compiled field (the Go `compiledField`
wrapper's other member, `AllowWildcard`, is threaded explicitly through
`compileExpr` as the `allow` argument). -/
structure compiledStatement where
  TimeRange : TimeRange
  Interval : Interval
  InheritedInterval : Bool
  Ascending : Bool
  FunctionCalls : List Expr
  OnlySelectors : Bool
  HasDistinct : Bool
  FillOption : FillOption
  TopBottomFunction : String
  HasAuxiliaryFields : Bool
  Fields : List SField
  TimeFieldName : String
  Limit : Int
  HasTarget : Bool
  NowVal : Int

/-- `newCompiler`: the fresh accumulator. All other members take the Go
zero value of their type.  (When `opt.Now` is the zero time the Go code
substitutes the wall clock; the fixed now is passed in explicitly
here.) -/
def newCompiler (now : Int) : compiledStatement where
  TimeRange := { Min := none, Max := none }
  Interval := { Duration := 0, Offset := 0 }
  InheritedInterval := false
  Ascending := false
  FunctionCalls := []
  OnlySelectors := true
  HasDistinct := false
  FillOption := .nullFill
  TopBottomFunction := ""
  HasAuxiliaryFields := false
  Fields := []
  TimeFieldName := "time"
  Limit := 0
  HasTarget := false
  NowVal := now

/-- Modelled from the spec: Go `time.Time.Truncate` on nanosecond
timestamps — rounds `t` down to a multiple of `d` (the start of `t`'s
interval); `d ≤ 0` leaves `t` unchanged. Used only for the dimension
offset forms "instant minus its own truncation to the interval". -/
def truncNano (t d : Int) : Int := if d ≤ 0 then t else t - t % d

/-- Go `strings.ToLower` (ASCII case folding, which is all the
dimension check compares against): written structurally so that it
evaluates by kernel reduction. -/
def lowerString (s : String) : String := String.mk (s.data.map Char.toLower)

/-- `compileSymbol`: the shared terminal-argument check — the argument
must be a bare reference, or (when wildcards are allowed here) a
wildcard or regex, either of which clears `OnlySelectors`. -/
def compileSymbol (c : compiledStatement) (allow : Bool) (name : String)
    (field : Expr) : Except String compiledStatement :=
  match field with
  | .varRef _ => .ok c
  | .wildcard =>
      if ¬allow then .error s!"unsupported expression with wildcard: {name}()"
      else .ok { c with OnlySelectors := false }
  | .regex =>
      if ¬allow then .error s!"unsupported expression with regex field: {name}()"
      else .ok { c with OnlySelectors := false }
  | _ => .error s!"expected field argument in {name}()"

/-- `compileDistinct`: exactly one argument, which must be a bare
reference; sets `HasDistinct` and clears `OnlySelectors`. -/
def compileDistinct (c : compiledStatement) (args : List Expr) :
    Except String compiledStatement :=
  if args.length = 0 then .error "distinct function requires at least one argument"
  else if args.length ≠ 1 then .error "distinct function can only have one argument"
  else match args with
    | [.varRef _] => .ok { c with HasDistinct := true, OnlySelectors := false }
    | _ => .error "expected field argument in distinct()"

/-- `compilePercentile`: two arguments, the second an integer or number
literal. -/
def compilePercentile (c : compiledStatement) (allow : Bool) (args : List Expr) :
    Except String compiledStatement :=
  match args with
  | [a0, a1] =>
      match a1 with
      | .integerLit _ => compileSymbol c allow "percentile" a0
      | .numberLit => compileSymbol c allow "percentile" a0
      | _ => .error "expected float argument in percentile()"
  | _ =>
      let got := args.length
      .error s!"invalid number of arguments for percentile, expected 2, got {got}"

/-- `compileSample`: two arguments, the second a positive integer
literal. -/
def compileSample (c : compiledStatement) (allow : Bool) (args : List Expr) :
    Except String compiledStatement :=
  match args with
  | [a0, a1] =>
      match a1 with
      | .integerLit n =>
          if n ≤ 0 then .error s!"sample window must be greater than 1, got {n}"
          else compileSymbol c allow "sample" a0
      | _ => .error "expected integer argument in sample()"
  | _ =>
      let got := args.length
      .error s!"invalid number of arguments for sample, expected 2, got {got}"

/-- `compileIntegral`: one or two arguments, the optional second a
positive duration literal; clears `OnlySelectors`; the first argument
is a terminal symbol only.  (Go prints the offending duration with
`FormatDuration`; the raw nanosecond value stands in for it here.) -/
def compileIntegral (c : compiledStatement) (allow : Bool) (args : List Expr) :
    Except String compiledStatement :=
  match args with
  | [a0] => compileSymbol { c with OnlySelectors := false } allow "integral" a0
  | [a0, a1] =>
      match a1 with
      | .durationLit d =>
          if d ≤ 0 then .error s!"duration argument must be positive, got {d}"
          else compileSymbol { c with OnlySelectors := false } allow "integral" a0
      | _ => .error "second argument must be a duration"
  | _ =>
      let got := args.length
      .error s!"invalid number of arguments for integral, expected at least 1 but no more than 2, got {got}"

/-- The middle-argument loop of `compileTopBottom` (`call.Args[1:len-1]`):
each must be a bare reference; when the statement has no persistence
target, each is appended as an additional compiled field and compiled.
Compiling a bare reference (`compileExpr` on a `VarRef`) only sets
`HasAuxiliaryFields`, which is inlined here. -/
def topBottomMiddles (c : compiledStatement) (name : String) :
    List Expr → Except String compiledStatement
  | [] => .ok c
  | .varRef v :: rest =>
      let c :=
        if ¬c.HasTarget then
          { c with Fields := c.Fields ++ [{ expr := Expr.varRef v, Alias := "" }],
                   HasAuxiliaryFields := true }
        else c
      topBottomMiddles c name rest
  | _ :: _ => .error s!"only fields or tags are allowed in {name}()"

/-- `compileTopBottom`: `top`/`bottom` may not be combined with any
other top/bottom call; at least two arguments; the last must be a
positive integer literal no larger than the statement's LIMIT (when one
is declared); the first must be a bare reference; middle arguments must
be bare references and are appended as extra fields unless the
statement writes into a target.  (Go prints the offending argument
expression in the two "found %s" messages; the text is omitted here.) -/
def compileTopBottom (c : compiledStatement) (name : String) (args : List Expr) :
    Except String compiledStatement :=
  if c.TopBottomFunction ≠ "" then
    let tb := c.TopBottomFunction
    .error s!"selector function {tb}() cannot be combined with other functions"
  else if args.length < 2 then
    let got := args.length
    .error s!"invalid number of arguments for {name}, expected at least 2, got {got}"
  else match args.getLast? with
    | some (.integerLit n) =>
        if n ≤ 0 then .error s!"limit ({n}) in {name} function must be at least 1"
        else if 0 < c.Limit ∧ c.Limit < n then
          let l := c.Limit
          .error s!"limit ({n}) in {name} function can not be larger than the LIMIT ({l}) in the select statement"
        else match args.head? with
          | some (.varRef _) =>
              match topBottomMiddles c name (args.drop 1).dropLast with
              | .error e => .error e
              | .ok c => .ok { c with TopBottomFunction := name }
          | _ => .error s!"expected first argument to be a field in {name}()"
    | _ => .error s!"expected integer as last argument in {name}()"

/-- `compileFunction`: the basic aggregates and selectors.  `max`,
`min`, `first`, `last` are selectors (do not clear `OnlySelectors`);
`count`, `sum`, `mean`, `median`, `mode`, `stddev`, `spread` clear it;
any other name is undefined.  Exactly one argument.  `count` may take a
`distinct(...)` call (or DISTINCT form) as its argument, delegating to
the distinct validation path. -/
def compileFunction (c : compiledStatement) (allow : Bool) (name : String)
    (args : List Expr) : Except String compiledStatement :=
  let selCheck : Except String compiledStatement :=
    if name = "max" ∨ name = "min" ∨ name = "first" ∨ name = "last" then .ok c
    else if name = "count" ∨ name = "sum" ∨ name = "mean" ∨ name = "median" ∨
        name = "mode" ∨ name = "stddev" ∨ name = "spread" then
      .ok { c with OnlySelectors := false }
    else .error s!"undefined function {name}()"
  match selCheck with
  | .error e => .error e
  | .ok c =>
      match args with
      | [a0] =>
          if name = "count" then
            match a0 with
            | .call "distinct" dargs => compileDistinct c dargs
            | .distinctE v => compileDistinct c [Expr.varRef v]
            | _ => compileSymbol c allow name a0
          else compileSymbol c allow name a0
      | _ =>
          let got := args.length
          .error s!"invalid number of arguments for {name}, expected 1, got {got}"

mutual

/-- `compiledField.compileExpr`: recursive, expression-kind-dispatched
validation.  `allow` is the Go `compiledField.AllowWildcard` member: it
starts `true` for a top-level field and, once cleared on entering a
binary expression, stays cleared for that whole subtree (the only
mutation in the source), so it is threaded downward here.  A bare
reference, wildcard or regex marks `HasAuxiliaryFields`; a call is
registered in `FunctionCalls` and dispatched by name; a literal at this
level is "unimplemented". -/
def compileExpr (c : compiledStatement) (allow : Bool) :
    Expr → Except String compiledStatement
  | .varRef _ => .ok { c with HasAuxiliaryFields := true }
  | .wildcard =>
      let c := { c with HasAuxiliaryFields := true }
      if ¬allow then .error "unable to use wildcard in a binary expression"
      else .ok c
  | .regex =>
      if ¬allow then .error "unable to use regex in a binary expression"
      else .ok { c with HasAuxiliaryFields := true }
  | .call name args =>
      let c := { c with FunctionCalls := c.FunctionCalls ++ [Expr.call name args] }
      match name with
      | "percentile" => compilePercentile c allow args
      | "sample" => compileSample c allow args
      | "distinct" => compileDistinct c args
      | "top" => compileTopBottom c "top" args
      | "bottom" => compileTopBottom c "bottom" args
      | "derivative" => compileDerivative c allow args false
      | "non_negative_derivative" => compileDerivative c allow args true
      | "difference" => compileDifference c allow args false
      | "non_negative_difference" => compileDifference c allow args true
      | "cumulative_sum" => compileCumulativeSum c allow args
      | "moving_average" => compileMovingAverage c allow args
      | "elapsed" => compileElapsed c allow args
      | "integral" => compileIntegral c allow args
      | "holt_winters" => compileHoltWinters c allow args false
      | "holt_winters_with_fit" => compileHoltWinters c allow args true
      | _ => compileFunction c allow name args
  | .distinctE v =>
      let c := { c with FunctionCalls := c.FunctionCalls ++ [Expr.call "distinct" [Expr.varRef v]] }
      compileDistinct c [Expr.varRef v]
  | .binary lhs rhs =>
      -- Wildcards are disallowed inside binary expressions: AllowWildcard
      -- is cleared for the rest of this subtree.  If exactly one operand
      -- is a literal only the other side is compiled; two literals fail.
      if lhs.isLiteral then
        if rhs.isLiteral then .error "cannot perform a binary expression on two literals"
        else compileExpr c false rhs
      else if rhs.isLiteral then compileExpr c false lhs
      else
        match compileExpr c false lhs with
        | .error e => .error e
        | .ok c => compileExpr c false rhs
  | .paren e => compileExpr c allow e
  | _ => .error "unimplemented"

/-- `compileDerivative` (also `non_negative_derivative`): one or two
arguments, the optional second a positive duration literal; clears
`OnlySelectors`.  A nested call as first argument requires a non-zero
grouping interval; a terminal symbol requires a zero grouping interval.
(Go checks the optional duration first and then dispatches on the first
argument; the dispatch is written out in both arity branches here.) -/
def compileDerivative (c : compiledStatement) (allow : Bool) (args : List Expr)
    (isNonNegative : Bool) : Except String compiledStatement :=
  let name := if isNonNegative then "non_negative_derivative" else "derivative"
  match args with
  | [arg0] =>
      let c := { c with OnlySelectors := false }
      match arg0 with
      | .call cn cargs =>
          if c.Interval.IsZero then .error s!"{name} aggregate requires a GROUP BY interval"
          else compileExpr c allow (Expr.call cn cargs)
      | _ =>
          if ¬c.Interval.IsZero then .error s!"aggregate function required inside the call to {name}"
          else compileSymbol c allow name arg0
  | [arg0, arg1] =>
      match arg1 with
      | .durationLit d =>
          if d ≤ 0 then .error s!"duration argument must be positive, got {d}"
          else
            let c := { c with OnlySelectors := false }
            match arg0 with
            | .call cn cargs =>
                if c.Interval.IsZero then .error s!"{name} aggregate requires a GROUP BY interval"
                else compileExpr c allow (Expr.call cn cargs)
            | _ =>
                if ¬c.Interval.IsZero then .error s!"aggregate function required inside the call to {name}"
                else compileSymbol c allow name arg0
      | _ => .error s!"second argument to {name} must be a duration"
  | _ =>
      let got := args.length
      .error s!"invalid number of arguments for {name}, expected at least 1 but no more than 2, got {got}"

/-- `compileElapsed`: same shape as `compileDerivative` with a fixed
name. -/
def compileElapsed (c : compiledStatement) (allow : Bool) (args : List Expr) :
    Except String compiledStatement :=
  match args with
  | [arg0] =>
      let c := { c with OnlySelectors := false }
      match arg0 with
      | .call cn cargs =>
          if c.Interval.IsZero then .error "elapsed aggregate requires a GROUP BY interval"
          else compileExpr c allow (Expr.call cn cargs)
      | _ =>
          if ¬c.Interval.IsZero then .error "aggregate function required inside the call to elapsed"
          else compileSymbol c allow "elapsed" arg0
  | [arg0, arg1] =>
      match arg1 with
      | .durationLit d =>
          if d ≤ 0 then .error s!"duration argument must be positive, got {d}"
          else
            let c := { c with OnlySelectors := false }
            match arg0 with
            | .call cn cargs =>
                if c.Interval.IsZero then .error "elapsed aggregate requires a GROUP BY interval"
                else compileExpr c allow (Expr.call cn cargs)
            | _ =>
                if ¬c.Interval.IsZero then .error "aggregate function required inside the call to elapsed"
                else compileSymbol c allow "elapsed" arg0
      | _ => .error "second argument to elapsed must be a duration"
  | _ =>
      let got := args.length
      .error s!"invalid number of arguments for elapsed, expected at least 1 but no more than 2, got {got}"

/-- `compileDifference` (also `non_negative_difference`): exactly one
argument; clears `OnlySelectors`; same nested-vs-terminal duality as
`compileDerivative`. -/
def compileDifference (c : compiledStatement) (allow : Bool) (args : List Expr)
    (isNonNegative : Bool) : Except String compiledStatement :=
  let name := if isNonNegative then "non_negative_difference" else "difference"
  match args with
  | [arg0] =>
      let c := { c with OnlySelectors := false }
      match arg0 with
      | .call cn cargs =>
          if c.Interval.IsZero then .error s!"{name} aggregate requires a GROUP BY interval"
          else compileExpr c allow (Expr.call cn cargs)
      | _ =>
          if ¬c.Interval.IsZero then .error s!"aggregate function required inside the call to {name}"
          else compileSymbol c allow name arg0
  | _ =>
      let got := args.length
      .error s!"invalid number of arguments for {name}, expected 1, got {got}"

/-- `compileCumulativeSum`: exactly one argument; clears
`OnlySelectors`; same nested-vs-terminal duality. -/
def compileCumulativeSum (c : compiledStatement) (allow : Bool) (args : List Expr) :
    Except String compiledStatement :=
  match args with
  | [arg0] =>
      let c := { c with OnlySelectors := false }
      match arg0 with
      | .call cn cargs =>
          if c.Interval.IsZero then .error "cumulative_sum aggregate requires a GROUP BY interval"
          else compileExpr c allow (Expr.call cn cargs)
      | _ =>
          if ¬c.Interval.IsZero then .error "aggregate function required inside the call to cumulative_sum"
          else compileSymbol c allow "cumulative_sum" arg0
  | _ =>
      let got := args.length
      .error s!"invalid number of arguments for cumulative_sum, expected 1, got {got}"

/-- `compileMovingAverage`: exactly two arguments, the second an
integer literal greater than 1; clears `OnlySelectors`; same
nested-vs-terminal duality. -/
def compileMovingAverage (c : compiledStatement) (allow : Bool) (args : List Expr) :
    Except String compiledStatement :=
  match args with
  | [arg0, arg1] =>
      match arg1 with
      | .integerLit n =>
          if n ≤ 1 then .error s!"moving_average window must be greater than 1, got {n}"
          else
            let c := { c with OnlySelectors := false }
            match arg0 with
            | .call cn cargs =>
                if c.Interval.IsZero then .error "moving_average aggregate requires a GROUP BY interval"
                else compileExpr c allow (Expr.call cn cargs)
            | _ =>
                if ¬c.Interval.IsZero then .error "aggregate function required inside the call to moving_average"
                else compileSymbol c allow "moving_average" arg0
      | _ => .error "second argument for moving_average must be an integer"
  | _ =>
      let got := args.length
      .error s!"invalid number of arguments for moving_average, expected 2, got {got}"

/-- `compileHoltWinters` (also `holt_winters_with_fit`): exactly three
arguments — a nested aggregate call (always required, under a non-zero
interval), a positive integer and a non-negative integer. -/
def compileHoltWinters (c : compiledStatement) (allow : Bool) (args : List Expr)
    (withFit : Bool) : Except String compiledStatement :=
  let name := if withFit then "holt_winters_with_fit" else "holt_winters"
  match args with
  | [a0, a1, a2] =>
      match a1 with
      | .integerLit n =>
          if n ≤ 0 then .error s!"second arg to {name} must be greater than 0, got {n}"
          else match a2 with
            | .integerLit s =>
                if s < 0 then .error s!"third arg to {name} cannot be negative, got {s}"
                else
                  let c := { c with OnlySelectors := false }
                  match a0 with
                  | .call cn cargs =>
                      if c.Interval.IsZero then .error s!"{name} aggregate requires a GROUP BY interval"
                      else compileExpr c allow (Expr.call cn cargs)
                  | _ => .error s!"must use aggregate function with {name}"
            | _ => .error s!"expected integer argument as third arg in {name}"
      | _ => .error s!"expected integer argument as second arg in {name}"
  | _ =>
      let got := args.length
      .error s!"invalid number of arguments for {name}, expected 3, got {got}"

end

/-- The time-selection test of `compileFields`: a bare variable
reference whose value is exactly "time" (case-sensitive here, unlike
the dimension check). -/
def isTimeField : Expr → Bool
  | .varRef v => v = "time"
  | _ => false

/-- `compiledStatement.compileFields`: a selected field that is a bare
"time" reference is removed (its alias, when present, becomes the time
column's name `TimeFieldName`); every other field is appended to
`Fields` and compiled with wildcards allowed. -/
def compileFields (c : compiledStatement) :
    List SField → Except String compiledStatement
  | [] => .ok c
  | f :: fs =>
      if isTimeField f.expr then
        let c := if f.Alias ≠ "" then { c with TimeFieldName := f.Alias } else c
        compileFields c fs
      else
        let c := { c with Fields := c.Fields ++ [f] }
        match compileExpr c true f.expr with
        | .error e => .error e
        | .ok c => compileFields c fs

/-- One GROUP BY dimension of `compiledStatement.compileDimensions`
(the body of its loop).  A bare reference named "time"
(case-insensitive) is rejected; a call must be `time()` with one or two
arguments, the first a duration literal (rejecting a second time
dimension when a non-zero duration was already recorded); the optional
offset argument accepts a duration literal (mod duration), a time
literal, a zero-argument `now()` call, or a string literal that parses
as a timestamp; wildcard and regex dimensions pass through.  (The error
return of the external `ToTimeLiteral` parse is folded into the
`stringLit` payload being `none`.) -/
def compileDimension (c : compiledStatement) (d : Expr) :
    Except String compiledStatement :=
  match d with
  | .varRef v =>
      if lowerString v = "time" then
        .error "time() is a function and expects at least one argument"
      else .ok c
  | .call name args =>
      if name ≠ "time" then .error "only time() calls allowed in dimensions"
      else match args with
        | [] => .error "time dimension expected 1 or 2 arguments"
        | arg0 :: rest =>
            if rest.length > 1 then .error "time dimension expected 1 or 2 arguments"
            else match arg0 with
              | .durationLit dur =>
                  if c.Interval.Duration ≠ 0 then .error "multiple time dimensions not allowed"
                  else
                    let c := { c with Interval := { c.Interval with Duration := dur } }
                    match rest with
                    | [] => .ok c
                    | off :: _ =>
                        match off with
                        | .durationLit v =>
                            .ok { c with Interval := { c.Interval with
                              Offset := Int.tmod v c.Interval.Duration } }
                        | .timeLit t =>
                            .ok { c with Interval := { c.Interval with
                              Offset := t - truncNano t c.Interval.Duration } }
                        | .call "now" nargs =>
                            if nargs.length ≠ 0 then
                              .error "time dimension offset now() function requires no arguments"
                            else
                              .ok { c with Interval := { c.Interval with
                                Offset := c.NowVal - truncNano c.NowVal c.Interval.Duration } }
                        | .call _ _ => .error "time dimension offset function must be now()"
                        | .stringLit (some t) =>
                            .ok { c with Interval := { c.Interval with
                              Offset := t - truncNano t c.Interval.Duration } }
                        | _ => .error "time dimension offset must be duration or now()"
              | _ => .error "time dimension must have duration argument"
  | .wildcard => .ok c
  | .regex => .ok c
  | _ => .error "only time and tag dimensions allowed"

/-- `compiledStatement.compileDimensions`: the loop over the GROUP BY
dimensions. -/
def compileDimensions (c : compiledStatement) :
    List Expr → Except String compiledStatement
  | [] => .ok c
  | d :: ds =>
      match compileDimension c d with
      | .error e => .error e
      | .ok c => compileDimensions c ds

/-- `compiledStatement.validateFields`: the statement validator — at
least one (non-time) field; top/bottom may not coexist with other
calls; with no calls at all, `fill(none)`/`fill(linear)` are illegal
and a non-inherited grouping interval requires an aggregate; distinct
is exclusive; auxiliary fields only mix with at most one selector. -/
def validateFields (c : compiledStatement) : Except String Unit :=
  -- The source's if / else-if / switch chain is flattened to the
  -- equivalent first-failing-check chain: the fill-option switch and
  -- interval check only run when there are no function calls (and
  -- top/bottom did not already fail), exactly as guarded below.
  let tb := c.TopBottomFunction
  if c.Fields.length = 0 then .error "at least 1 non-time field must be queried"
  else if c.FunctionCalls.length > 1 ∧ c.TopBottomFunction ≠ "" then
    .error s!"selector function {tb}() cannot be combined with other functions"
  else if c.FunctionCalls.length = 0 ∧ c.FillOption = FillOption.noFill then
    .error "fill(none) must be used with a function"
  else if c.FunctionCalls.length = 0 ∧ c.FillOption = FillOption.linearFill then
    .error "fill(linear) must be used with a function"
  else if c.FunctionCalls.length = 0 ∧ ¬c.Interval.IsZero ∧ ¬c.InheritedInterval then
    .error "GROUP BY requires at least one aggregate function"
  else if c.HasDistinct ∧ (c.FunctionCalls.length ≠ 1 ∨ c.HasAuxiliaryFields) then
    .error "aggregate function distinct() cannot be combined with other functions or fields"
  else if c.HasAuxiliaryFields ∧ ¬c.OnlySelectors then
    .error "mixing aggregate and non-aggregate queries is not supported"
  else if c.HasAuxiliaryFields ∧ c.FunctionCalls.length > 1 then
    .error "mixing multiple selector functions with tags or fields is not supported"
  else .ok ()

/-- The default time-bound resolution tail of
`compiledStatement.preprocess` (compile.go lines 142-156), factored
for the proofs: a missing lower bound becomes the minimum
representable timestamp; a missing upper bound becomes the fixed "now"
when a grouping interval is present and the maximum representable
timestamp otherwise. -/
def resolveBounds (c : compiledStatement) : compiledStatement :=
  let c :=
    match c.TimeRange.Min with
    | none => { c with TimeRange := { c.TimeRange with Min := some MinTime } }
    | some _ => c
  match c.TimeRange.Max with
  | none =>
      if ¬c.Interval.IsZero then
        { c with TimeRange := { c.TimeRange with Max := some c.NowVal } }
      else
        { c with TimeRange := { c.TimeRange with Max := some MaxTime } }
  | some _ => c

/-- `compiledStatement.preprocess`: records the statement's global
attributes, extracts the WHERE time range (via the external
`influxql.ConditionExpr`, whose output is `stmt.CondTimeRange` here),
compiles the dimensions, records the fill option and resolves the
default time bounds (`resolveBounds`). -/
def preprocess (c : compiledStatement) (stmt : SelectStatement) :
    Except String compiledStatement :=
  let c := { c with Ascending := stmt.SortAscending, Limit := stmt.Limit,
                    HasTarget := stmt.HasTarget,
                    TimeRange := stmt.CondTimeRange }
  match compileDimensions c stmt.Dimensions with
  | .error e => .error e
  | .ok c => .ok (resolveBounds { c with FillOption := stmt.Fill })

/-- The field-compilation and validation part of
`compiledStatement.compile`.  The source's `compile` additionally loops
over `stmt.Sources`, recursively compiling each subquery source; the
per-subquery state adjustments of that recursion are `subqueryState`
below, and the recursion itself (which only propagates errors — the
parent state is not changed by it) is not needed by any claim. -/
def compileFV (c : compiledStatement) (stmt : SelectStatement) :
    Except String compiledStatement :=
  match compileFields c stmt.Fields with
  | .error e => .error e
  | .ok c =>
      match validateFields c with
      | .error e => .error e
      | .ok _ => .ok c

/-- `compiledStatement.subquery`, up to (and excluding) its final
`subquery.compile(stmt)` recursion: builds a fresh compiler sharing the
parent's fixed "now" and preprocesses the subquery (the `Reduce` of the
subquery's condition against the shared now is an external AST rewrite
whose result is not stored); rejects an explicit subquery sort order
different from the parent's and otherwise inherits the parent's
direction; intersects the child's resolved time range with the
parent's; downgrades the fill option per the source's condition; and
inherits the parent's grouping interval when the subquery declared
none, marking it inherited. -/
def subqueryState (c : compiledStatement) (stmt : SelectStatement) :
    Except String compiledStatement :=
  match preprocess (newCompiler c.NowVal) stmt with
  | .error e => .error e
  | .ok subquery =>
      if stmt.HasSortFields ∧ subquery.Ascending ≠ c.Ascending then
        .error "subqueries must be ordered in the same direction as the query itself"
      else
        let subquery := { subquery with Ascending := c.Ascending }
        let subquery := { subquery with
          TimeRange := subquery.TimeRange.Intersect c.TimeRange }
        -- Source condition (compile.go line 778): the downgrade fires when
        -- the subquery's interval is NOT zero — `!subquery.Interval.IsZero()`.
        let subquery :=
          if ¬subquery.Interval.IsZero ∧ subquery.FillOption = FillOption.nullFill then
            { subquery with FillOption := FillOption.noFill }
          else subquery
        let subquery :=
          if ¬c.Interval.IsZero ∧ subquery.Interval.IsZero then
            { subquery with Interval := c.Interval, InheritedInterval := true }
          else subquery
        .ok subquery

/-- Modelled from the spec: `IteratorOptions.Window` (with no timezone
location) — the bucket-index operation mapping an absolute timestamp to
the start of its containing grouping window; a zero duration returns
the timestamp itself. -/
def windowStart (duration offset t : Int) : Int :=
  if duration = 0 then t
  else t - (t - offset) % duration

/-- The pre-mapping phase of `compiledStatement.Prepare` (the shard
time range handed to the shard mapper).  `isRawQuery` is the external
AST flag `stmt.IsRawQuery` (false for an aggregate query); `interval`
and `offset` are the results of the external `stmt.GroupByInterval()` /
`stmt.GroupByOffset()` (the same values `compileDimensions` recorded in
`c.Interval`).  All `int64` arithmetic of the source wraps (`wrap64`);
`maxDiff/int64(interval)` truncates toward zero (`Int.tdiv`). -/
def mappedTimeRange (tr : TimeRange) (isRawQuery : Bool)
    (interval offset maxBucketsN : Int) : TimeRange :=
  if maxBucketsN > 0 ∧ ¬isRawQuery ∧ tr.minTime = MinTime ∧ interval > 0 then
    let last := windowStart interval offset (tr.maxTime - 1)
    let maxDiff := wrap64 (last - MinNanoTime)
    if maxDiff.tdiv interval > maxBucketsN then
      { tr with Min := some MinNanoTime }
    else
      { tr with Min := some (wrap64 (last - wrap64 (interval * (maxBucketsN - 1)))) }
  else tr

/-- The max-select-buckets error message of `Prepare`. -/
def bucketErrMsg (buckets maxBucketsN : Int) : String :=
  s!"max-select-buckets limit exceeded: ({buckets}/{maxBucketsN})"

/-- The observable outcome of `compiledStatement.Prepare` relative to
the bucket limit: either the max-select-buckets error (with the
shard-set handle closed first, as the source does), or a prepared
statement carrying the shard-mapping time range that was handed to the
shard mapper and the iterator options' absolute start/end times and
sort direction. -/
inductive PrepareOutcome where
  | bucketErr (msg : String) (shardsClosed : Bool)
  | prepared (mapped : TimeRange) (startTime endTime : Int) (ascending : Bool)
  deriving DecidableEq

/-- `compiledStatement.Prepare`, with the external collaborator steps
(`shardMapper.MapShards`, the wildcard rewrite `RewriteFields` and
`newIteratorOptionsStmt`) assumed successful — their failure paths only
propagate the collaborator's error (closing the shard handle where the
source does) and decide nothing about the claims.  Phase 1 narrows the
shard-mapping time range (`mappedTimeRange`); the iterator options then
take the statement's true (unnarrowed) bounds; phase 2 re-checks the
bucket count over the true range when the true lower bound is known,
closing the shard handle and failing when the budget is exceeded. -/
def prepare (tr : TimeRange) (isRawQuery ascending : Bool)
    (interval offset maxBucketsN : Int) : PrepareOutcome :=
  let timeRange := mappedTimeRange tr isRawQuery interval offset maxBucketsN
  let startTime := tr.minTime
  let endTime := tr.maxTime
  if maxBucketsN > 0 ∧ ¬isRawQuery ∧ tr.minTime > MinTime ∧ interval > 0 then
    let first := windowStart interval offset startTime
    let last := windowStart interval offset (endTime - 1)
    let buckets := (wrap64 (wrap64 (last - first) + interval)).tdiv interval
    if buckets > maxBucketsN then
      .bucketErr (bucketErrMsg buckets maxBucketsN) true
    else .prepared timeRange startTime endTime ascending
  else .prepared timeRange startTime endTime ascending

/-- The derivative-family function name used in error messages. -/
def derivativeName (isNonNegative : Bool) : String :=
  if isNonNegative then "non_negative_derivative" else "derivative"

/-- The error a derivative-family call with a nested call argument
raises when the grouping interval is zero (the `name`-interpolated
message of `compileDerivative`). -/
def derivIntervalMsg (isNonNegative : Bool) : String :=
  let name := derivativeName isNonNegative
  s!"{name} aggregate requires a GROUP BY interval"

/-- The error a derivative-family call with a terminal argument raises
when the grouping interval is non-zero. -/
def derivAggregateMsg (isNonNegative : Bool) : String :=
  let name := derivativeName isNonNegative
  s!"aggregate function required inside the call to {name}"

/-- Concrete parent state for exercising the subquery compiler: an
already-preprocessed outer statement with no grouping interval, the
full default time range, ascending order and now = 1000. -/
def parentFlat : compiledStatement :=
  { newCompiler 1000 with
      Ascending := true
      TimeRange := { Min := some MinTime, Max := some MaxTime } }

/-- Concrete subquery without a grouping interval and with fill(null)
(the influxql default fill). -/
def childNoInterval : SelectStatement where
  Fields := [{ expr := Expr.varRef "value", Alias := "" }]
  Dimensions := []
  CondTimeRange := { Min := none, Max := none }
  Fill := .nullFill
  Limit := 0
  HasTarget := false
  SortAscending := true
  HasSortFields := false

/-- Concrete statement for the preprocess witness: `SELECT mean(value)
... GROUP BY time(10m)` with no WHERE time bounds. -/
def groupedStmt : SelectStatement where
  Fields := [{ expr := Expr.call "mean" [Expr.varRef "value"], Alias := "" }]
  Dimensions := [Expr.call "time" [Expr.durationLit 600000000000]]
  CondTimeRange := { Min := none, Max := none }
  Fill := .nullFill
  Limit := 0
  HasTarget := false
  SortAscending := true
  HasSortFields := false

/-- Concrete parent state over the explicit time range [10, 100]. -/
def parentTen : compiledStatement :=
  { newCompiler 1000 with
      Ascending := true
      TimeRange := { Min := some 10, Max := some 100 } }

/-- Concrete subquery whose WHERE condition resolved to the explicit
time range [0, 80]. -/
def childBounded : SelectStatement where
  Fields := [{ expr := Expr.varRef "value", Alias := "" }]
  Dimensions := []
  CondTimeRange := { Min := some 0, Max := some 80 }
  Fill := .nullFill
  Limit := 0
  HasTarget := false
  SortAscending := true
  HasSortFields := false

/-- Concrete subquery with a 10-minute grouping interval and with
fill(null). -/
def childWithInterval : SelectStatement where
  Fields := [{ expr := Expr.call "mean" [Expr.varRef "value"], Alias := "" }]
  Dimensions := [Expr.call "time" [Expr.durationLit 600000000000]]
  CondTimeRange := { Min := none, Max := none }
  Fill := .nullFill
  Limit := 0
  HasTarget := false
  SortAscending := true
  HasSortFields := false

/- ------------------------------------------------------------------ -/
/- Helper lemmas                                                      -/
/- ------------------------------------------------------------------ -/

/-- A value already in `int64` range is unchanged by wraparound. -/
theorem wrap64_eq_self (x : Int) (h1 : -9223372036854775808 ≤ x)
    (h2 : x < 9223372036854775808) : wrap64 x = x := by
  unfold wrap64
  omega

/-- Truncating division of a non-positive value by a non-negative one
is non-positive. -/
theorem tdiv_nonpos_of_nonpos (a b : Int) (ha : a ≤ 0) (hb : 0 ≤ b) :
    a.tdiv b ≤ 0 := by
  have h := Int.tdiv_nonneg (a := -a) (b := b) (by omega) hb
  rw [Int.neg_tdiv] at h
  omega

/-- `compileDimension` only writes the grouping interval: the time
range and the fixed now survive each dimension. -/
theorem compileDimension_preserves (c c' : compiledStatement) (d : Expr)
    (h : compileDimension c d = .ok c') :
    c'.TimeRange = c.TimeRange ∧ c'.NowVal = c.NowVal := by
  unfold compileDimension at h
  repeat' split at h
  all_goals simp_all
  all_goals (cases h; simp)

/-- The loop version of `compileDimension_preserves`. -/
theorem compileDimensions_preserves (ds : List Expr) :
    ∀ (c c' : compiledStatement), compileDimensions c ds = .ok c' →
      c'.TimeRange = c.TimeRange ∧ c'.NowVal = c.NowVal := by
  induction ds with
  | nil =>
      intro c c' h
      unfold compileDimensions at h
      cases h
      exact ⟨rfl, rfl⟩
  | cons d ds ih =>
      intro c c' h
      unfold compileDimensions at h
      split at h
      · cases h
      · rename_i c1 heq
        have h1 := compileDimension_preserves c c1 d heq
        have h2 := ih c1 c' h
        exact ⟨h2.1.trans h1.1, h2.2.trans h1.2⟩

/- ------------------------------------------------------------------ -/
/- Claims                                                             -/
/- ------------------------------------------------------------------ -/

/-- C9 (counterexample): the claim requires the first argument of
`time()` to be a *positive* duration literal, any other first argument
failing.  The code accepts `time(0)` — a duration literal that is not
positive — without error: `compileDimensions` checks only that the
argument is a duration literal and records its value verbatim. -/
theorem c9_counterexample :
    compileDimensions (newCompiler 0)
      [Expr.call "time" [Expr.durationLit 0]] = .ok (newCompiler 0) := rfl

/-- C9 (amended): a GROUP BY dimension that is a call must be `time()`
with 1 or 2 arguments; its first argument must be a *duration literal*
(any other first argument fails; positivity is not checked at this
stage); a second `time()` call after one that recorded a non-zero
duration fails with the multiple-time-dimensions error; and a bare
dimension reference named "time" (case-insensitive) is rejected. -/
theorem c9_amended_dimensions :
    (∀ (c : compiledStatement) (v : String) (ds : List Expr), lowerString v = "time" →
      compileDimensions c (Expr.varRef v :: ds) =
        .error "time() is a function and expects at least one argument") ∧
    (∀ (c : compiledStatement) (name : String) (args ds : List Expr), name ≠ "time" →
      compileDimensions c (Expr.call name args :: ds) =
        .error "only time() calls allowed in dimensions") ∧
    (∀ (c : compiledStatement) (args ds : List Expr),
      args.length = 0 ∨ args.length > 2 →
      compileDimensions c (Expr.call "time" args :: ds) =
        .error "time dimension expected 1 or 2 arguments") ∧
    (∀ (c : compiledStatement) (a0 : Expr) (rest ds : List Expr),
      rest.length ≤ 1 → (∀ v, a0 ≠ Expr.durationLit v) →
      compileDimensions c (Expr.call "time" (a0 :: rest) :: ds) =
        .error "time dimension must have duration argument") ∧
    (∀ (c : compiledStatement) (dur : Int) (rest ds : List Expr),
      c.Interval.Duration ≠ 0 → rest.length ≤ 1 →
      compileDimensions c (Expr.call "time" (Expr.durationLit dur :: rest) :: ds) =
        .error "multiple time dimensions not allowed") ∧
    (∀ (c : compiledStatement) (dur : Int) (ds : List Expr),
      c.Interval.Duration = 0 →
      compileDimensions c (Expr.call "time" [Expr.durationLit dur] :: ds) =
        compileDimensions
          { c with Interval := { c.Interval with Duration := dur } } ds) := by
  refine ⟨?_, ?_, ?_, ?_, ?_, ?_⟩
  · intro c v ds hv
    simp [compileDimensions, compileDimension, hv]
  · intro c name args ds hn
    simp [compileDimensions, compileDimension, hn]
  · intro c args ds hlen
    rcases hlen with h0 | h2
    · have : args = [] := List.eq_nil_of_length_eq_zero h0
      subst this
      simp [compileDimensions, compileDimension]
    · match args with
      | a0 :: rest =>
          have : rest.length > 1 := by simp at h2; omega
          simp [compileDimensions, compileDimension, this]
  · intro c a0 rest ds hlen hnd
    have hr : ¬(1 < rest.length) := by omega
    cases a0 <;> simp_all [compileDimensions, compileDimension, if_neg hr]
  · intro c dur rest ds hd hlen
    have hr : ¬(1 < rest.length) := by omega
    simp [compileDimensions, compileDimension, if_neg hr, hd]
  · intro c dur ds hd
    simp [compileDimensions, compileDimension, hd]

/-- C9 (amended, witness): the amended behaviours at concrete inputs —
a bare "Time" reference, a non-time call, a 3-argument time call, a
string first argument, a second time dimension, and the accept-and-
record equation for `time(10)`. -/
theorem c9_amended_witness :
    compileDimensions (newCompiler 0) [Expr.varRef "Time"] =
      .error "time() is a function and expects at least one argument" ∧
    compileDimensions (newCompiler 0) [Expr.call "host" []] =
      .error "only time() calls allowed in dimensions" ∧
    compileDimensions (newCompiler 0)
      [Expr.call "time" [Expr.durationLit 1, Expr.durationLit 2, Expr.durationLit 3]] =
      .error "time dimension expected 1 or 2 arguments" ∧
    compileDimensions (newCompiler 0) [Expr.call "time" [Expr.varRef "x"]] =
      .error "time dimension must have duration argument" ∧
    compileDimensions { newCompiler 0 with Interval := { Duration := 5, Offset := 0 } }
      [Expr.call "time" [Expr.durationLit 10]] =
      .error "multiple time dimensions not allowed" ∧
    compileDimensions (newCompiler 0) [Expr.call "time" [Expr.durationLit 10]] =
      compileDimensions
        { newCompiler 0 with Interval := { Duration := 10, Offset := 0 } } [] := by
  refine ⟨?_, ?_, ?_, ?_, ?_, ?_⟩
  · exact c9_amended_dimensions.1 (newCompiler 0) "Time" [] (by decide)
  · exact c9_amended_dimensions.2.1 (newCompiler 0) "host" [] [] (by decide)
  · exact c9_amended_dimensions.2.2.1 (newCompiler 0) _ [] (by simp)
  · exact c9_amended_dimensions.2.2.2.1 (newCompiler 0) (Expr.varRef "x") [] []
      (by simp) (fun v => by simp)
  · exact c9_amended_dimensions.2.2.2.2.1 _ 10 [] [] (by decide) (by simp)
  · exact c9_amended_dimensions.2.2.2.2.2 (newCompiler 0) 10 [] rfl

/-- C10: a top-level selected field that is a bare reference named
exactly "time" is removed from the compiled field list (its alias,
when present, becoming the time column's display name) and does not
count toward the at-least-one-field requirement, so a statement whose
only selected field is "time" fails validation with the
at-least-one-non-time-field error. -/
theorem c10_time_field_removal :
    (∀ (c : compiledStatement) (a : String) (fs : List SField),
      compileFields c ({ expr := Expr.varRef "time", Alias := a } :: fs) =
        compileFields (if a ≠ "" then { c with TimeFieldName := a } else c) fs) ∧
    (∀ (now : Int) (a : String),
      ∃ c', compileFields (newCompiler now) [{ expr := Expr.varRef "time", Alias := a }] = .ok c' ∧
        c'.Fields = [] ∧
        c'.TimeFieldName = (if a ≠ "" then a else "time") ∧
        validateFields c' = .error "at least 1 non-time field must be queried") := by
  constructor
  · intro c a fs
    simp [compileFields, isTimeField]
  · intro now a
    refine ⟨if a ≠ "" then { newCompiler now with TimeFieldName := a } else newCompiler now, ?_, ?_, ?_, ?_⟩
    · rw [compileFields, if_pos (by simp [isTimeField])]
      split <;> simp [compileFields]
    · split <;> simp [newCompiler]
    · split <;> simp_all [newCompiler]
    · split <;> rfl

/-- C10 (witness): the two parts at concrete inputs — the skip
equation for `SELECT time AS ts, max(value)`-style field lists, and the
failure of `SELECT time`. -/
theorem c10_witness :
    compileFields (newCompiler 7)
        [{ expr := Expr.varRef "time", Alias := "ts" },
         { expr := Expr.varRef "value", Alias := "" }] =
      compileFields { newCompiler 7 with TimeFieldName := "ts" }
        [{ expr := Expr.varRef "value", Alias := "" }] ∧
    ∃ c', compileFields (newCompiler 7) [{ expr := Expr.varRef "time", Alias := "" }] = .ok c' ∧
      c'.Fields = [] ∧
      c'.TimeFieldName = "time" ∧
      validateFields c' = .error "at least 1 non-time field must be queried" := by
  constructor
  · have h := c10_time_field_removal.1 (newCompiler 7) "ts"
      [{ expr := Expr.varRef "value", Alias := "" }]
    simpa using h
  · have h := c10_time_field_removal.2 7 ""
    simpa using h

/-- C6: when a `distinct()` call was encountered (all three syntactic
forms — `distinct(x)`, the DISTINCT form, `count(distinct(x))` —
funnel into `compileDistinct`, which sets `HasDistinct`), the statement
validator succeeds exactly when distinct is the sole function call and
no auxiliary (bare/wildcard/regex) fields are present; and
`compileDistinct` on a bare reference records precisely that state. -/
theorem c6_distinct_exclusive :
    (∀ (c : compiledStatement), c.Fields.length ≠ 0 → c.HasDistinct = true →
      (validateFields c = .ok () ↔
        (c.FunctionCalls.length = 1 ∧ c.HasAuxiliaryFields = false))) ∧
    (∀ (c : compiledStatement) (v : String),
      compileDistinct c [Expr.varRef v] =
        .ok { c with HasDistinct := true, OnlySelectors := false }) := by
  constructor
  · intro c hf hd
    unfold validateFields
    constructor
    · intro h
      split_ifs at h
      simp_all
    · rintro ⟨h1, h2⟩
      split_ifs <;> simp_all
  · intro c v
    rfl

/-- C6 (witness): a state with one distinct call and no auxiliary
fields validates; and `compileDistinct` at a concrete reference. -/
theorem c6_witness :
    validateFields
      { newCompiler 0 with
          Fields := [{ expr := Expr.call "distinct" [Expr.varRef "v"], Alias := "" }]
          FunctionCalls := [Expr.call "distinct" [Expr.varRef "v"]]
          HasDistinct := true
          OnlySelectors := false } = .ok () ∧
    compileDistinct (newCompiler 0) [Expr.varRef "v"] =
      .ok { newCompiler 0 with HasDistinct := true, OnlySelectors := false } := by
  constructor
  · exact (c6_distinct_exclusive.1 _ (by decide) rfl).mpr ⟨rfl, rfl⟩
  · exact c6_distinct_exclusive.2 (newCompiler 0) "v"

/-- C7: for `top()`/`bottom()`: (1) a second top/bottom call fails
immediately in `compileTopBottom`; (2) success implies the last
argument was a positive integer literal within the statement's LIMIT
when one is declared; (3) with a declared positive LIMIT, a larger
last argument fails with the limit-exceeds-statement-limit error;
(4) the validator rejects any state where top/bottom coexists with a
second function call. -/
theorem c7_top_bottom_rules :
    (∀ (c : compiledStatement) (name tb : String) (args : List Expr),
      c.TopBottomFunction = tb → tb ≠ "" →
      compileTopBottom c name args =
        .error s!"selector function {tb}() cannot be combined with other functions") ∧
    (∀ (c c' : compiledStatement) (name : String) (args : List Expr),
      compileTopBottom c name args = .ok c' →
      ∃ n, args.getLast? = some (Expr.integerLit n) ∧ 0 < n ∧
        (0 < c.Limit → n ≤ c.Limit)) ∧
    (∀ (c : compiledStatement) (name : String) (args : List Expr) (n l : Int),
      c.TopBottomFunction = "" → 2 ≤ args.length →
      args.getLast? = some (Expr.integerLit n) → 0 < n →
      c.Limit = l → 0 < l → l < n →
      compileTopBottom c name args =
        .error s!"limit ({n}) in {name} function can not be larger than the LIMIT ({l}) in the select statement") ∧
    (∀ (c : compiledStatement), c.TopBottomFunction ≠ "" →
      c.FunctionCalls.length > 1 → validateFields c ≠ .ok ()) := by
  refine ⟨?_, ?_, ?_, ?_⟩
  · intro c name tb args htb hne
    subst htb
    simp [compileTopBottom, hne]
  · intro c c' name args h
    unfold compileTopBottom at h
    repeat' split at h
    all_goals simp_all
  · intro c name args n l htb hlen hlast hn hl hl0 hln
    subst hl
    have h2 : ¬(args.length < 2) := by omega
    have h3 : ¬(n ≤ 0) := by omega
    simp [compileTopBottom, htb, h2, hlast, h3, hl0, hln]
  · intro c h1 h2 hcontra
    unfold validateFields at hcontra
    split_ifs at hcontra
    simp_all

/-- C7 (witness): Example 2 — `top(value, 3)` with a configured row
`LIMIT 2` fails with the limit error; a second selector call fails; a
successful compile has a positive in-limit integer last argument; a
state with top set and two calls fails validation. -/
theorem c7_witness :
    compileTopBottom { newCompiler 0 with Limit := 2 } "top"
        [Expr.varRef "value", Expr.integerLit 3] =
      .error "limit (3) in top function can not be larger than the LIMIT (2) in the select statement" ∧
    compileTopBottom { newCompiler 0 with TopBottomFunction := "top" } "bottom"
        [Expr.varRef "value", Expr.integerLit 1] =
      .error "selector function top() cannot be combined with other functions" ∧
    (∃ n, ([Expr.varRef "value", Expr.integerLit 3] : List Expr).getLast? =
        some (Expr.integerLit n) ∧ 0 < n ∧
        (0 < (newCompiler 0).Limit → n ≤ (newCompiler 0).Limit)) ∧
    validateFields
      { newCompiler 0 with
          Fields := [{ expr := Expr.call "top" [Expr.varRef "v", Expr.integerLit 1], Alias := "" }]
          FunctionCalls := [Expr.call "top" [Expr.varRef "v", Expr.integerLit 1],
                            Expr.call "mean" [Expr.varRef "v"]]
          TopBottomFunction := "top" } ≠ .ok () := by
  refine ⟨?_, ?_, ?_, ?_⟩
  · exact c7_top_bottom_rules.2.2.1 _ "top" _ 3 2 rfl (by decide) rfl
      (by decide) rfl (by decide) (by decide)
  · exact c7_top_bottom_rules.1 _ "bottom" "top" _ rfl (by decide)
  · exact c7_top_bottom_rules.2.1 (newCompiler 0)
      { newCompiler 0 with TopBottomFunction := "top" } "top"
      [Expr.varRef "value", Expr.integerLit 3] rfl
  · exact c7_top_bottom_rules.2.2.2 _ (by decide) (by decide)

/-- C8: for `derivative` / `non_negative_derivative` with a single
argument: a nested call as the argument fails when the statement's
grouping interval is zero (demanding a GROUP BY interval) and otherwise
proceeds into the nested call's compilation; a terminal (bare
reference) argument fails when the interval is non-zero (demanding an
aggregate inside the call) and otherwise compiles. -/
theorem c8_derivative_interval_duality :
    (∀ (c : compiledStatement) (allow : Bool) (nm : String) (cargs : List Expr) (isNN : Bool),
      c.Interval.IsZero →
      compileDerivative c allow [Expr.call nm cargs] isNN = .error (derivIntervalMsg isNN)) ∧
    (∀ (c : compiledStatement) (allow : Bool) (v : String) (isNN : Bool),
      ¬c.Interval.IsZero →
      compileDerivative c allow [Expr.varRef v] isNN = .error (derivAggregateMsg isNN)) ∧
    (∀ (c : compiledStatement) (allow : Bool) (v : String) (isNN : Bool),
      c.Interval.IsZero →
      compileDerivative c allow [Expr.varRef v] isNN = .ok { c with OnlySelectors := false }) ∧
    (∀ (c : compiledStatement) (allow : Bool) (nm : String) (cargs : List Expr) (isNN : Bool),
      ¬c.Interval.IsZero →
      compileDerivative c allow [Expr.call nm cargs] isNN =
        compileExpr { c with OnlySelectors := false } allow (Expr.call nm cargs)) := by
  refine ⟨?_, ?_, ?_, ?_⟩
  · intro c allow nm cargs isNN h
    rw [compileDerivative]
    simp only [Interval.IsZero] at h
    simp [derivIntervalMsg, derivativeName, Interval.IsZero, h]
  · intro c allow v isNN h
    rw [compileDerivative]
    simp only [Interval.IsZero] at h
    simp [derivAggregateMsg, derivativeName, Interval.IsZero, h, compileSymbol]
    intro cn cargs hcc
    cases hcc
  · intro c allow v isNN h
    rw [compileDerivative]
    simp only [Interval.IsZero] at h
    simp [Interval.IsZero, h, compileSymbol]
    intro cn cargs hcc
    cases hcc
  · intro c allow nm cargs isNN h
    rw [compileDerivative]
    simp only [Interval.IsZero] at h
    simp [Interval.IsZero, h]

/-- C8 (witness): Example 3 — `derivative(value)` with no GROUP BY
compiles; `derivative(mean(value))` with no GROUP BY interval fails
demanding one; the mismatches in both directions at a 10m interval. -/
theorem c8_witness :
    compileDerivative (newCompiler 0) true [Expr.varRef "value"] false =
      .ok { newCompiler 0 with OnlySelectors := false } ∧
    compileDerivative (newCompiler 0) true
        [Expr.call "mean" [Expr.varRef "value"]] false =
      .error "derivative aggregate requires a GROUP BY interval" ∧
    compileDerivative
        { newCompiler 0 with Interval := { Duration := 600000000000, Offset := 0 } } true
        [Expr.varRef "value"] false =
      .error "aggregate function required inside the call to derivative" ∧
    compileDerivative
        { newCompiler 0 with Interval := { Duration := 600000000000, Offset := 0 } } true
        [Expr.call "mean" [Expr.varRef "value"]] true =
      compileExpr
        { newCompiler 0 with Interval := { Duration := 600000000000, Offset := 0 },
                             OnlySelectors := false } true
        (Expr.call "mean" [Expr.varRef "value"]) := by
  refine ⟨?_, ?_, ?_, ?_⟩
  · exact c8_derivative_interval_duality.2.2.1 (newCompiler 0) true "value" false rfl
  · exact c8_derivative_interval_duality.1 (newCompiler 0) true "mean"
      [Expr.varRef "value"] false rfl
  · exact c8_derivative_interval_duality.2.1 _ true "value" false (by decide)
  · exact c8_derivative_interval_duality.2.2.2 _ true "mean"
      [Expr.varRef "value"] true (by decide)

/-- C2 (code evaluation at the failing input): the source's downgrade
condition is `!subquery.Interval.IsZero()` (compile.go line 778) — the
*negation* of the claim's.  A subquery with fill(null) and *no*
grouping interval keeps fill(null) (the claim demands the downgrade
there, where the two fills are observably equivalent), while a
subquery with fill(null) and a 10-minute grouping interval is
downgraded to fill(none) (the claim demands it be left unchanged
there; with an interval the two fills are observably different, so the
downgrade changes query results). -/
theorem c2_fill_downgrade_divergence :
    Except.map (fun s => s.FillOption) (subqueryState parentFlat childNoInterval) =
      .ok FillOption.nullFill ∧
    Except.map (fun s => s.FillOption) (subqueryState parentFlat childWithInterval) =
      .ok FillOption.noFill := ⟨rfl, rfl⟩

/-- C5: after the subquery compiler's range adjustment, the child's
time range is exactly the intersection of its own resolved (post-
preprocess) range with the parent's, and in particular lies inside the
parent's range whenever the parent's bounds are set. -/
theorem c5_subquery_time_subset (c c0 sub : compiledStatement) (stmt : SelectStatement)
    (h0 : preprocess (newCompiler c.NowVal) stmt = .ok c0)
    (h : subqueryState c stmt = .ok sub) :
    sub.TimeRange = c0.TimeRange.Intersect c.TimeRange ∧
    (∀ pm, c.TimeRange.Min = some pm → ∃ m, sub.TimeRange.Min = some m ∧ pm ≤ m) ∧
    (∀ pM, c.TimeRange.Max = some pM → ∃ M, sub.TimeRange.Max = some M ∧ M ≤ pM) := by
  unfold subqueryState at h
  rw [h0] at h
  simp only [] at h
  split at h
  · cases h
  · have hsub : sub.TimeRange = c0.TimeRange.Intersect c.TimeRange := by
      cases h
      split <;> split <;> rfl
    refine ⟨hsub, ?_, ?_⟩
    · intro pm hpm
      rw [hsub]
      unfold TimeRange.Intersect
      cases hc0 : c0.TimeRange.Min with
      | none => exact ⟨pm, by simp [hpm, hc0], le_refl pm⟩
      | some tm =>
          by_cases hgt : pm > tm
          · exact ⟨pm, by simp [hpm, hc0, hgt], le_refl pm⟩
          · exact ⟨tm, by simp [hpm, hc0, hgt], by omega⟩
    · intro pM hpM
      rw [hsub]
      unfold TimeRange.Intersect
      cases hc0 : c0.TimeRange.Max with
      | none => exact ⟨pM, by simp [hpM, hc0], le_refl pM⟩
      | some tM =>
          by_cases hlt : pM < tM
          · exact ⟨pM, by simp [hpM, hc0, hlt], le_refl pM⟩
          · exact ⟨tM, by simp [hpM, hc0, hlt], by omega⟩

/-- C5 (witness): a parent over [10, 100] with a child resolving to
[0, 80]: the child's mapped range is the intersection [10, 80], inside
the parent's. -/
theorem c5_witness :
    ∃ c0 sub,
      preprocess (newCompiler parentTen.NowVal) childBounded = .ok c0 ∧
      subqueryState parentTen childBounded = .ok sub ∧
      sub.TimeRange = c0.TimeRange.Intersect parentTen.TimeRange ∧
      (∃ m, sub.TimeRange.Min = some m ∧ 10 ≤ m) ∧
      (∃ M, sub.TimeRange.Max = some M ∧ M ≤ 100) := by
  obtain ⟨c0, h0⟩ : ∃ c0, preprocess (newCompiler parentTen.NowVal) childBounded = .ok c0 :=
    ⟨_, rfl⟩
  obtain ⟨sub, h⟩ : ∃ sub, subqueryState parentTen childBounded = .ok sub := ⟨_, rfl⟩
  have hmain := c5_subquery_time_subset parentTen c0 sub childBounded h0 h
  refine ⟨c0, sub, h0, h, hmain.1, ?_, ?_⟩
  · obtain ⟨m, hm, hle⟩ := hmain.2.1 10 rfl
    exact ⟨m, hm, hle⟩
  · obtain ⟨M, hM, hle⟩ := hmain.2.2 100 rfl
    exact ⟨M, hM, hle⟩

/-- C3: when the WHERE condition yields no upper time bound,
`preprocess` resolves the upper bound to the fixed compile-time now if
a non-zero grouping interval was declared and to the maximum
representable timestamp otherwise; a missing lower bound always
resolves to the minimum representable timestamp. -/
theorem resolveBounds_spec (c : compiledStatement) :
    (resolveBounds c).Interval = c.Interval ∧
    (c.TimeRange.Max = none →
      (resolveBounds c).TimeRange.Max =
        some (if c.Interval.IsZero then MaxTime else c.NowVal)) ∧
    (c.TimeRange.Min = none → (resolveBounds c).TimeRange.Min = some MinTime) := by
  unfold resolveBounds
  cases hm : c.TimeRange.Min <;> cases hM : c.TimeRange.Max <;>
    simp_all <;> split <;> simp_all

theorem c3_preprocess_default_bounds (c0 c' : compiledStatement) (stmt : SelectStatement)
    (h : preprocess c0 stmt = .ok c')
    (hmax : stmt.CondTimeRange.Max = none) :
    c'.TimeRange.Max = some (if c'.Interval.IsZero then MaxTime else c0.NowVal) ∧
    (stmt.CondTimeRange.Min = none → c'.TimeRange.Min = some MinTime) := by
  unfold preprocess at h
  dsimp only at h
  split at h
  · cases h
  · rename_i c1 heq
    have hpres := compileDimensions_preserves stmt.Dimensions _ c1 heq
    have htr : c1.TimeRange = stmt.CondTimeRange := by
      rw [hpres.1]
    have hnow : c1.NowVal = c0.NowVal := by
      rw [hpres.2]
    cases h
    have hspec := resolveBounds_spec { c1 with FillOption := stmt.Fill }
    constructor
    · rw [hspec.2.1 (by simp [htr, hmax]), hspec.1]
      simp [hnow]
    · intro hmin
      exact hspec.2.2 (by simp [htr, hmin])

/-- C3 (witness): Example 1 — `SELECT mean(value) ... GROUP BY
time(10m)` with no WHERE time bounds, compiled at now = 1234: the
upper bound resolves to the fixed now (the interval is non-zero) and
the lower bound to the minimum timestamp. -/
theorem c3_witness :
    ∃ c', preprocess (newCompiler 1234) groupedStmt = .ok c' ∧
      c'.TimeRange.Max = some (if c'.Interval.IsZero then MaxTime else 1234) ∧
      c'.TimeRange.Min = some MinTime := by
  obtain ⟨c', hc⟩ : ∃ c', preprocess (newCompiler 1234) groupedStmt = .ok c' := ⟨_, rfl⟩
  have h := c3_preprocess_default_bounds (newCompiler 1234) c' groupedStmt hc rfl
  exact ⟨c', hc, h.1, h.2 rfl⟩

/-- C1 (counterexample): with `MaxBucketsN = 100`, a 10-minute
interval, no explicit lower bound and upper bound at the epoch
(`WHERE time <= 0`), the full historical range spans far more than 100
windows, so the claim demands the mapped lower bound be narrowed to
`last - interval·(MaxBucketsN-1)` — but the code leaves it at the
minimum representable timestamp (the quotient `maxDiff/interval` only
stays positive, making the code's first branch fire, when the upper
bound is this ancient; for modern upper bounds `maxDiff` overflows
int64 and goes negative, steering the code into its narrowing
branch).  The branches are exactly inverted relative to the claim's
description. -/
theorem c1_counterexample :
    mappedTimeRange { Min := some MinTime, Max := some 0 } false 600000000000 0 100 =
      { Min := some MinNanoTime, Max := some 0 } ∧
    (windowStart 600000000000 0 ((0 : Int) - 1) - MinNanoTime).tdiv 600000000000 > 100 ∧
    some MinNanoTime ≠
      some (windowStart 600000000000 0 ((0 : Int) - 1) - 600000000000 * (100 - 1)) := by
  refine ⟨by decide, by decide, by decide⟩

/-- C1 (amended): the pre-mapping narrowing is decided by wrapping
64-bit arithmetic on `maxDiff = last - MinNanoTime`.  For every upper
bound whose last window start is at least 2 (every realistic query —
`maxDiff` overflows to a negative value, so the quotient cannot exceed
the budget), the mapped lower bound is narrowed to the tightest bound
such that the number of grouping windows between it and the upper
bound cannot exceed `MaxBucketsN`, exactly as the claim describes; but
when the last window start is at or before 1ns past the epoch and the
(now overflow-free) historical window count exceeds the budget, the
lower bound is left at the minimum representable timestamp instead of
being narrowed. -/
theorem c1_amended_prepare_narrowing (tr : TimeRange)
    (interval offset maxBucketsN : Int)
    (hN : 0 < maxBucketsN) (hi : 0 < interval)
    (hsent : tr.Min = some MinTime) :
    (2 ≤ windowStart interval offset (tr.maxTime - 1) →
      windowStart interval offset (tr.maxTime - 1) ≤ 4611686018427387904 →
      interval * (maxBucketsN - 1) ≤ 4611686018427387904 →
      mappedTimeRange tr false interval offset maxBucketsN =
        { tr with Min := some (windowStart interval offset (tr.maxTime - 1) -
            interval * (maxBucketsN - 1)) } ∧
      (windowStart interval offset (tr.maxTime - 1) -
          (windowStart interval offset (tr.maxTime - 1) -
            interval * (maxBucketsN - 1))).tdiv interval + 1 = maxBucketsN) ∧
    (windowStart interval offset (tr.maxTime - 1) ≤ 1 →
      MinNanoTime ≤ windowStart interval offset (tr.maxTime - 1) →
      (windowStart interval offset (tr.maxTime - 1) - MinNanoTime).tdiv interval >
        maxBucketsN →
      mappedTimeRange tr false interval offset maxBucketsN =
        { tr with Min := some MinNanoTime }) := by
  have hmin : tr.minTime = MinTime := by simp [TimeRange.minTime, hsent]
  set L := windowStart interval offset (tr.maxTime - 1) with hL
  constructor
  · intro h2 hub hprod
    have h0le : 0 ≤ interval * (maxBucketsN - 1) :=
      mul_nonneg (by omega) (by omega)
    unfold mappedTimeRange
    rw [← hL, if_pos ⟨hN, by simp, hmin, hi⟩]
    have hw : wrap64 (L - MinNanoTime) = L - MinNanoTime - 18446744073709551616 := by
      unfold wrap64 MinNanoTime
      omega
    have hneg : (wrap64 (L - MinNanoTime)).tdiv interval ≤ 0 := by
      rw [hw]
      exact tdiv_nonpos_of_nonpos _ _ (by unfold MinNanoTime; omega) (by omega)
    rw [if_neg (by omega)]
    have hp1 : wrap64 (interval * (maxBucketsN - 1)) = interval * (maxBucketsN - 1) :=
      wrap64_eq_self _ (by omega) (by omega)
    have hp2 : wrap64 (L - interval * (maxBucketsN - 1)) =
        L - interval * (maxBucketsN - 1) :=
      wrap64_eq_self _ (by omega) (by omega)
    rw [hp1, hp2]
    refine ⟨rfl, ?_⟩
    have hsub : L - (L - interval * (maxBucketsN - 1)) = interval * (maxBucketsN - 1) := by
      ring
    rw [hsub, Int.mul_tdiv_cancel_left _ (by omega)]
    omega
  · intro h1 hmn hq
    unfold mappedTimeRange
    dsimp only
    rw [← hL, if_pos ⟨hN, by simp, hmin, hi⟩]
    have hw : wrap64 (L - MinNanoTime) = L - MinNanoTime := by
      apply wrap64_eq_self <;> (unfold MinNanoTime at hmn ⊢; omega)
    rw [hw, if_pos hq]

/-- C1 (amended, witness): interval 10, offset 0, budget 3, upper
bound 101 (last window start 100 ≥ 2): the mapped lower bound narrows
to 100 − 10·2 = 80, spanning exactly 3 windows. -/
theorem c1_amended_witness :
    mappedTimeRange { Min := some MinTime, Max := some 101 } false 10 0 3 =
      { Min := some 80, Max := some 101 } ∧
    ((100 : Int) - 80).tdiv 10 + 1 = 3 := by
  have h := (c1_amended_prepare_narrowing { Min := some MinTime, Max := some 101 }
    10 0 3 (by decide) (by decide) rfl).1 (by decide) (by decide) (by decide)
  exact ⟨h.1, h.2⟩

/-- C4: in `Prepare`, when a positive bucket budget is configured, the
statement is an aggregate (non-raw) query with a positive grouping
interval, and the true lower bound is strictly above the minimum
sentinel, the window count over the true [min, max] range is compared
with the budget: exceeding it yields the max-select-buckets error with
the shard-set handle closed; staying within it yields the prepared
statement (whose iterator options carry the true bounds and sort
direction, and whose shard range is the unnarrowed true range since an
explicit lower bound suppresses the pre-mapping narrowing). -/
theorem c4_post_mapping_bucket_limit (tr : TimeRange) (ascending : Bool)
    (interval offset maxBucketsN : Int)
    (hN : 0 < maxBucketsN) (hi : 0 < interval)
    (hmin : MinTime < tr.minTime)
    (hd1 : -2305843009213693952 ≤ windowStart interval offset (tr.maxTime - 1) -
      windowStart interval offset tr.minTime)
    (hd2 : windowStart interval offset (tr.maxTime - 1) -
      windowStart interval offset tr.minTime ≤ 2305843009213693952)
    (hi2 : interval ≤ 2305843009213693952) :
    ((windowStart interval offset (tr.maxTime - 1) - windowStart interval offset tr.minTime +
        interval).tdiv interval > maxBucketsN →
      prepare tr false ascending interval offset maxBucketsN =
        .bucketErr (bucketErrMsg ((windowStart interval offset (tr.maxTime - 1) -
          windowStart interval offset tr.minTime + interval).tdiv interval) maxBucketsN)
          true) ∧
    ((windowStart interval offset (tr.maxTime - 1) - windowStart interval offset tr.minTime +
        interval).tdiv interval ≤ maxBucketsN →
      prepare tr false ascending interval offset maxBucketsN =
        .prepared tr tr.minTime tr.maxTime ascending) := by
  set F := windowStart interval offset tr.minTime with hF
  set L := windowStart interval offset (tr.maxTime - 1) with hLL
  have hw1 : wrap64 (L - F) = L - F := wrap64_eq_self _ (by omega) (by omega)
  have hw2 : wrap64 (L - F + interval) = L - F + interval :=
    wrap64_eq_self _ (by omega) (by omega)
  have hmp : mappedTimeRange tr false interval offset maxBucketsN = tr := by
    unfold mappedTimeRange
    rw [if_neg]
    intro hc
    omega
  constructor
  · intro hb
    unfold prepare
    dsimp only
    rw [← hF, ← hLL, if_pos ⟨hN, by simp, by omega, hi⟩, hw1, hw2, if_pos hb]
  · intro hb
    unfold prepare
    dsimp only
    rw [← hF, ← hLL, if_pos ⟨hN, by simp, by omega, hi⟩, hw1, hw2, if_neg (by omega), hmp]

/-- C4 (witness): budget 3, interval 10, explicit range [0, 100]: 10
windows exceed the budget and `Prepare` fails with the handle closed;
range [0, 25]: 3 windows fit and the prepared statement carries the
true bounds. -/
theorem c4_witness :
    prepare { Min := some 0, Max := some 100 } false true 10 0 3 =
      .bucketErr (bucketErrMsg 10 3) true ∧
    prepare { Min := some 0, Max := some 25 } false true 10 0 3 =
      .prepared { Min := some 0, Max := some 25 } 0 25 true := by
  constructor
  · exact (c4_post_mapping_bucket_limit { Min := some 0, Max := some 100 } true 10 0 3
      (by decide) (by decide) (by decide) (by decide) (by decide) (by decide)).1 (by decide)
  · exact (c4_post_mapping_bucket_limit { Min := some 0, Max := some 25 } true 10 0 3
      (by decide) (by decide) (by decide) (by decide) (by decide) (by decide)).2 (by decide)

end query
